import Mathlib

/-
Verification of the rotor actor-framework core (dispatch, lifecycle,
request/response correlation) against its specification.

The development shallowly embeds the relevant C++ code:

* `request_builder_t<T>` constructor / `timeout` / `install_handler`
  (include/rotor/supervisor.h, lines 411-459) as state transitions on
  `sup_state`;
* `supervisor_t::subscribe_actor` / `unsubscribe_actor`
  (include/rotor/supervisor.h, lines 208-237);
* `init_shutdown_plugin_t::on_init` / `on_shutdown`
  (src/rotor/plugin/init_shutdown.cpp, lines 23-37);
* `lifetime_plugin_t::handle_shutdown` / `unsubscribe` /
  `handle_unsubscription_external` (src/rotor/plugin/lifetime.cpp);
* `handler_t` equality / hashing (include/rotor/handler.hpp).

Machine integers are modelled as `Nat` with explicit `% 2 ^ w` where
overflow matters (the 32-bit request/timer id counter, the 64-bit hash).
`std::unordered_map` values are modelled as association lists whose keys
are kept unique by the guarded insertions of the code itself.
-/

namespace Rotor

/-- Association-list lookup, mirroring `std::unordered_map::find`: the
first entry with the given key wins. -/
def alist_lookup {α β : Type} [DecidableEq α] (k : α) : List (α × β) → Option β
  | [] => none
  | e :: rest => if e.1 = k then some e.2 else alist_lookup k rest

/-- Association-list erasure of a key, mirroring
`std::unordered_map::erase` (keys are unique in an `unordered_map`, so
removing every entry with the key coincides with removing the found
entry). -/
def alist_erase {α β : Type} [DecidableEq α] (k : α) : List (α × β) → List (α × β)
  | [] => []
  | e :: rest => if e.1 = k then alist_erase k rest else e :: alist_erase k rest

/-- Association-list insert-or-assign used for `try_emplace` followed by a
mutation of the mapped value. -/
def alist_set {α β : Type} [DecidableEq α] (k : α) (v : β) : List (α × β) → List (α × β)
  | [] => [(k, v)]
  | e :: rest => if e.1 = k then (k, v) :: rest else e :: alist_set k v rest

/-- Removal of a timer id from the list of armed timers, mirroring
`cancel_timer` on the adapter's timer set. -/
def nat_erase (k : Nat) : List Nat → List Nat
  | [] => []
  | i :: rest => if i = k then nat_erase k rest else i :: nat_erase k rest

/-- The modulus of the 32-bit `timer_id_t` counter `last_req_id`. -/
def u32 : Nat := 2 ^ 32

/-- A stored timeout response message (`responce_message_t{reply_to,
wrapped_res_t{request_timeout, req}}`, supervisor.h line 435): its
destination is the original requester's address and its wrapped payload
carries the request id of the request it guards. -/
structure timeout_msg where
  dest : Nat
  req_id : Nat
deriving DecidableEq

/-- A message delivered to a requester-side address by the response
handler or by the timeout machinery: destination address, whether the
payload is the synthetic `request_timeout` error, and the request id
carried inside the wrapped payload. -/
structure delivery where
  dest : Nat
  is_timeout : Bool
  req_id : Nat
deriving DecidableEq

/-- The request/response-relevant portion of `supervisor_t`:
`last_req_id`, `request_subscriptions` (response type tag to imaginary
address), the installed response handlers (imaginary address to the
request id captured by the lambda of `install_handler`), `request_map`,
the set of armed timer ids, the allocator of fresh addresses
(`make_address`), and the log of messages delivered to requester
addresses. -/
structure sup_state where
  last_req_id : Nat
  request_subscriptions : List (Nat × Nat)
  handlers : List (Nat × Nat)
  request_map : List (Nat × timeout_msg)
  armed : List Nat
  next_addr : Nat
  delivered : List delivery
deriving DecidableEq

/-- The freshly constructed supervisor: counter at zero, all maps empty. -/
def sup_init : sup_state := ⟨0, [], [], [], [], 0, []⟩

/-- The `request_builder_t<T>` constructor (supervisor.h lines 411-431):
assigns `request_id = ++last_req_id` (a 32-bit increment), looks the
response message type tag up in `request_subscriptions`; on a hit the
cached imaginary address is reused and no handler is to be installed, on
a miss a fresh address is allocated via `make_address`, cached under the
tag, and `do_install_handler` is set. Returns (request id, imaginary
address, do_install_handler, new state). -/
def request_builder (type_tag : Nat) (st : sup_state) :
    Nat × Nat × Bool × sup_state :=
  let request_id := (st.last_req_id + 1) % u32
  match alist_lookup type_tag st.request_subscriptions with
  | some a => (request_id, a, false, { st with last_req_id := request_id })
  | none =>
      let a := st.next_addr
      (request_id, a, true,
        { st with
            last_req_id := request_id,
            request_subscriptions := st.request_subscriptions ++ [(type_tag, a)],
            next_addr := st.next_addr + 1 })

/-- The body of `request_builder_t<T>::timeout` (supervisor.h lines
433-443): builds the timeout response message destined to `reply_to`
whose wrapped payload carries this request's id, installs the response
handler when `do_install_handler` is set (`install_handler`, lines
445-459, captures THIS request id into the lambda), stores the timeout
message under `request_map[request_id]`, and arms a timer with id
`request_id`. -/
def builder_timeout (reply_to request_id imaginary_address : Nat)
    (do_install : Bool) (st : sup_state) : sup_state :=
  let st1 :=
    if do_install then
      { st with handlers := st.handlers ++ [(imaginary_address, request_id)] }
    else st
  { st1 with
      request_map := st1.request_map ++ [(request_id, ⟨reply_to, request_id⟩)],
      armed := request_id :: st1.armed }

/-- A request issued via `do_request` immediately followed by
`builder.timeout(d)`, the usage pattern of the framework. -/
def do_request_timeout (type_tag reply_to : Nat) (st : sup_state) : sup_state :=
  match request_builder type_tag st with
  | (request_id, imaginary_address, do_install, st1) =>
      builder_timeout reply_to request_id imaginary_address do_install st1

/-- The body of the lambda installed by `install_handler` (supervisor.h
lines 445-459), exactly as the code writes it: the `request_map` lookup
key is `request_id` CAPTURED when the handler was installed (the id of
the first request of the response type), not the id carried by the
arriving response message. On a hit the timer with the captured id is
cancelled, the arriving payload (`msg.payload`, which carries the
arriving message's own request id) is forwarded to the destination of
the stored timeout message, and the entry is erased; on a miss the
message is silently dropped. -/
def handler_body (captured_id msg_req_id : Nat) (st : sup_state) : sup_state :=
  match alist_lookup captured_id st.request_map with
  | some tm =>
      { st with
          armed := nat_erase captured_id st.armed,
          delivered := st.delivered ++ [⟨tm.dest, false, msg_req_id⟩],
          request_map := alist_erase captured_id st.request_map }
  | none => st

/-- Arrival of a response message at imaginary address `a` carrying
request id `msg_req_id`: the handler subscribed on `a` (there is at most
one) runs; with no subscriber the message is dropped. -/
def response_arrive (a msg_req_id : Nat) (st : sup_state) : sup_state :=
  match alist_lookup a st.handlers with
  | some captured => handler_body captured msg_req_id st
  | none => st

/-- Modelled from the spec: `supervisor_t::on_timer_trigger` is declared
in supervisor.h (line 166) but its body lives in supervisor.cpp, which
is not among the sources. Spec section 4.6 step 5: on timer firing the
supervisor takes the stored timeout message out of `request_map` and
delivers it to the caller's address. A timer only fires while armed, and
firing disarms it. -/
def on_timer_trigger (timer_id : Nat) (st : sup_state) : sup_state :=
  if timer_id ∈ st.armed then
    let st1 := { st with armed := nat_erase timer_id st.armed }
    match alist_lookup timer_id st.request_map with
    | some tm =>
        { st1 with
            delivered := st1.delivered ++ [⟨tm.dest, true, tm.req_id⟩],
            request_map := alist_erase timer_id st1.request_map }
    | none => st1
  else st

/-- Modelled from the spec: arming of the shutdown timer at
shutdown-initiation (spec section 4.4) with the reserved id
`shutdown_timer_id = 0` (supervisor.h line 256); the arming itself
happens in supervisor.cpp, which is not among the sources. No
`request_map` entry is created. -/
def arm_shutdown_timer (st : sup_state) : sup_state :=
  { st with armed := 0 :: st.armed }

/-- The observable events of the request layer. -/
inductive sup_op where
  | request (type_tag reply_to : Nat)
  | response (a msg_req_id : Nat)
  | timer (timer_id : Nat)
  | arm_shutdown
deriving DecidableEq

/-- One step of the request layer. -/
def sup_step (op : sup_op) (st : sup_state) : sup_state :=
  match op with
  | .request t r => do_request_timeout t r st
  | .response a m => response_arrive a m st
  | .timer i => on_timer_trigger i st
  | .arm_shutdown => arm_shutdown_timer st

/-- Running a trace of events from the freshly constructed supervisor. -/
def sup_run (ops : List sup_op) : sup_state :=
  ops.foldl (fun st op => sup_step op st) sup_init

/-- How many messages correlated with request `req_id` were delivered to
the requester address `caller`: both the real response (is_timeout =
false) and the synthetic timeout (is_timeout = true) count. -/
def observations (caller req_id : Nat) (st : sup_state) : Nat :=
  (st.delivered.filter (fun d => d.dest == caller && d.req_id == req_id)).length

/-- The response type tags of the requests issued in a trace. -/
def requested_tags (ops : List sup_op) : List Nat :=
  ops.filterMap (fun op =>
    match op with
    | .request t _ => some t
    | _ => none)

/-- The number of requests issued in a trace. -/
def req_count : List sup_op → Nat
  | [] => 0
  | op :: rest =>
    (match op with
     | .request _ _ => 1
     | _ => 0) + req_count rest

theorem alist_lookup_append {α β : Type} [DecidableEq α] (k : α)
    (l1 l2 : List (α × β)) :
    alist_lookup k (l1 ++ l2) =
      match alist_lookup k l1 with
      | some v => some v
      | none => alist_lookup k l2 := by
  induction l1 with
  | nil => simp [alist_lookup]
  | cons e rest ih =>
    by_cases he : e.1 = k <;> simp [alist_lookup, he, ih]

theorem alist_lookup_mem {α β : Type} [DecidableEq α] {k : α} {v : β}
    {l : List (α × β)} (h : alist_lookup k l = some v) : (k, v) ∈ l := by
  induction l with
  | nil => simp [alist_lookup] at h
  | cons e rest ih =>
    by_cases he : e.1 = k
    · simp [alist_lookup, he] at h
      have hkv : e = (k, v) := by
        cases e
        simp_all
      exact hkv ▸ List.mem_cons_self _ _
    · simp [alist_lookup, he] at h
      exact List.mem_cons_of_mem _ (ih h)

theorem alist_lookup_erase {α β : Type} [DecidableEq α] (i k : α)
    (l : List (α × β)) :
    alist_lookup i (alist_erase k l) =
      if i = k then none else alist_lookup i l := by
  induction l with
  | nil => simp [alist_erase, alist_lookup]
  | cons e rest ih =>
    by_cases hik : i = k
    · subst hik
      by_cases hek : e.1 = i
      · simp [alist_erase, hek, ih]
      · simp [alist_erase, alist_lookup, hek, ih]
    · by_cases hek : e.1 = k
      · have hei : e.1 ≠ i := by
          rw [hek]
          exact fun h => hik h.symm
        have hki : ¬k = i := fun h => hik h.symm
        simp [alist_erase, alist_lookup, hek, hei, hik, hki, ih]
      · by_cases hei : e.1 = i
        · simp [alist_erase, alist_lookup, hek, hei, hik]
        · simp [alist_erase, alist_lookup, hek, hei, hik, ih]

theorem mem_nat_erase (i k : Nat) (l : List Nat) :
    i ∈ nat_erase k l ↔ i ∈ l ∧ i ≠ k := by
  induction l with
  | nil => simp [nat_erase]
  | cons j rest ih =>
    by_cases hjk : j = k
    · subst hjk
      by_cases hij : i = j
      · subst hij
        simp [nat_erase, ih]
      · simp [nat_erase, hij, ih]
    · by_cases hij : i = j
      · subst hij
        simp [nat_erase, hjk, ih]
      · simp [nat_erase, hjk, hij, ih]

theorem handler_body_fields (c m : Nat) (st : sup_state) :
    (handler_body c m st).request_subscriptions = st.request_subscriptions ∧
    (handler_body c m st).handlers = st.handlers ∧
    (handler_body c m st).next_addr = st.next_addr ∧
    (handler_body c m st).last_req_id = st.last_req_id := by
  unfold handler_body
  cases alist_lookup c st.request_map <;> exact ⟨rfl, rfl, rfl, rfl⟩

theorem response_arrive_fields (a m : Nat) (st : sup_state) :
    (response_arrive a m st).request_subscriptions = st.request_subscriptions ∧
    (response_arrive a m st).handlers = st.handlers ∧
    (response_arrive a m st).next_addr = st.next_addr ∧
    (response_arrive a m st).last_req_id = st.last_req_id := by
  unfold response_arrive
  cases alist_lookup a st.handlers with
  | none => exact ⟨rfl, rfl, rfl, rfl⟩
  | some c => exact handler_body_fields c m st

theorem on_timer_trigger_fields (i : Nat) (st : sup_state) :
    (on_timer_trigger i st).request_subscriptions = st.request_subscriptions ∧
    (on_timer_trigger i st).handlers = st.handlers ∧
    (on_timer_trigger i st).next_addr = st.next_addr ∧
    (on_timer_trigger i st).last_req_id = st.last_req_id := by
  unfold on_timer_trigger
  split
  · cases alist_lookup i st.request_map <;> exact ⟨rfl, rfl, rfl, rfl⟩
  · exact ⟨rfl, rfl, rfl, rfl⟩

theorem do_request_timeout_shape (t r : Nat) (st : sup_state) :
    (do_request_timeout t r st).request_map =
      st.request_map ++
        [((st.last_req_id + 1) % u32, ⟨r, (st.last_req_id + 1) % u32⟩)] ∧
    (do_request_timeout t r st).armed =
      ((st.last_req_id + 1) % u32) :: st.armed ∧
    (do_request_timeout t r st).last_req_id = (st.last_req_id + 1) % u32 := by
  unfold do_request_timeout request_builder builder_timeout
  cases alist_lookup t st.request_subscriptions <;> simp

theorem do_request_timeout_subs (t r : Nat) (st : sup_state) :
    ((do_request_timeout t r st).request_subscriptions = st.request_subscriptions ∧
     (do_request_timeout t r st).handlers = st.handlers ∧
     (do_request_timeout t r st).next_addr = st.next_addr ∧
     (alist_lookup t st.request_subscriptions).isSome) ∨
    ((do_request_timeout t r st).request_subscriptions =
        st.request_subscriptions ++ [(t, st.next_addr)] ∧
     (do_request_timeout t r st).handlers =
        st.handlers ++ [(st.next_addr, (st.last_req_id + 1) % u32)] ∧
     (do_request_timeout t r st).next_addr = st.next_addr + 1 ∧
     alist_lookup t st.request_subscriptions = none) := by
  unfold do_request_timeout request_builder builder_timeout
  cases h : alist_lookup t st.request_subscriptions with
  | some a =>
      left
      simp [h]
  | none =>
      right
      simp [h]

/-- Counting occurrences in a list of naturals (used to count how many
handlers are installed on an address). -/
def nat_count (a : Nat) : List Nat → Nat
  | [] => 0
  | x :: rest => (if x = a then 1 else 0) + nat_count a rest

theorem nat_count_append (a : Nat) (l1 l2 : List Nat) :
    nat_count a (l1 ++ l2) = nat_count a l1 + nat_count a l2 := by
  induction l1 with
  | nil => simp [nat_count]
  | cons x rest ih => simp [nat_count, ih, Nat.add_assoc]

theorem nat_count_eq_zero (a : Nat) (l : List Nat) (h : a ∉ l) :
    nat_count a l = 0 := by
  induction l with
  | nil => rfl
  | cons x rest ih =>
    have hx : x ≠ a := fun he => h (he ▸ List.mem_cons_self _ _)
    have hrest : a ∉ rest := fun hm => h (List.mem_cons_of_mem _ hm)
    simp [nat_count, hx, ih hrest]

theorem nat_count_eq_one (a : Nat) (l : List Nat) (hd : l.Nodup) (hm : a ∈ l) :
    nat_count a l = 1 := by
  induction l with
  | nil => simp at hm
  | cons x rest ih =>
    rcases List.mem_cons.mp hm with he | hmem
    · subst he
      have hz : nat_count a rest = 0 :=
        nat_count_eq_zero a rest (List.nodup_cons.mp hd).1
      simp [nat_count, hz]
    · have hx : x ≠ a := fun hxa =>
        (List.nodup_cons.mp hd).1 (hxa ▸ hmem)
      simp [nat_count, hx, ih (List.nodup_cons.mp hd).2 hmem]

/-- The lazily-filled response-subscription cache and the installed
response handlers stay in lockstep: the cached imaginary addresses are
exactly the handler subscription addresses in allocation order, each
cached address is below the address allocator, and the cached addresses
are pairwise distinct. -/
def subs_handlers_inv (st : sup_state) : Prop :=
  st.request_subscriptions.map Prod.snd = st.handlers.map Prod.fst ∧
  (∀ p ∈ st.request_subscriptions, p.2 < st.next_addr) ∧
  (st.request_subscriptions.map Prod.snd).Nodup

theorem sup_init_inv : subs_handlers_inv sup_init := by
  refine ⟨rfl, ?_, ?_⟩ <;> simp [sup_init]

theorem sup_step_subs_stable (op : sup_op) (st : sup_state) (t a : Nat)
    (h : alist_lookup t st.request_subscriptions = some a) :
    alist_lookup t (sup_step op st).request_subscriptions = some a := by
  cases op with
  | request t2 r =>
    simp only [sup_step]
    rcases do_request_timeout_subs t2 r st with ⟨h1, _, _, _⟩ | ⟨h1, _, _, _⟩
    · rw [h1]; exact h
    · rw [h1, alist_lookup_append, h]
  | response a2 m =>
    simp only [sup_step]
    rw [(response_arrive_fields a2 m st).1]
    exact h
  | timer i =>
    simp only [sup_step]
    rw [(on_timer_trigger_fields i st).1]
    exact h
  | arm_shutdown => exact h

theorem subs_inv_step (op : sup_op) (st : sup_state) (h : subs_handlers_inv st) :
    subs_handlers_inv (sup_step op st) ∧
    (∀ a, a < st.next_addr →
      nat_count a ((sup_step op st).handlers.map Prod.fst) =
        nat_count a (st.handlers.map Prod.fst)) ∧
    st.next_addr ≤ (sup_step op st).next_addr := by
  cases op with
  | request t r =>
    simp only [sup_step]
    rcases do_request_timeout_subs t r st with ⟨h1, h2, h3, _⟩ | ⟨h1, h2, h3, _⟩
    · rw [subs_handlers_inv, h1, h2, h3]
      exact ⟨h, fun a _ => rfl, Nat.le_refl _⟩
    · constructor
      · rw [subs_handlers_inv, h1, h2, h3]
        refine ⟨?_, ?_, ?_⟩
        · simp [h.1]
        · intro p hp
          rcases List.mem_append.mp hp with hp1 | hp2
          · exact Nat.lt_succ_of_lt (h.2.1 p hp1)
          · simp at hp2
            subst hp2
            exact Nat.lt_succ_self _
        · rw [List.map_append]
          rw [List.nodup_append]
          refine ⟨h.2.2, List.nodup_singleton _, ?_⟩
          intro x hx hx2
          simp at hx2
          rcases List.mem_map.mp hx with ⟨p, hp, hpx⟩
          have := h.2.1 p hp
          rw [hpx, hx2] at this
          exact absurd this (Nat.lt_irrefl _)
      · constructor
        · intro a ha
          rw [h2, List.map_append, nat_count_append]
          have hne : st.next_addr ≠ a := Nat.ne_of_gt ha
          simp [nat_count, hne]
        · rw [h3]
          exact Nat.le_succ _
  | response a2 m =>
    simp only [sup_step]
    have hf := response_arrive_fields a2 m st
    rw [subs_handlers_inv, hf.1, hf.2.1, hf.2.2.1]
    exact ⟨h, fun a _ => rfl, Nat.le_refl _⟩
  | timer i =>
    simp only [sup_step]
    have hf := on_timer_trigger_fields i st
    rw [subs_handlers_inv, hf.1, hf.2.1, hf.2.2.1]
    exact ⟨h, fun a _ => rfl, Nat.le_refl _⟩
  | arm_shutdown =>
    exact ⟨h, fun a _ => rfl, Nat.le_refl _⟩

theorem subs_inv_run (ops : List sup_op) :
    ∀ st : sup_state, subs_handlers_inv st →
      subs_handlers_inv (ops.foldl (fun s op => sup_step op s) st) ∧
      (∀ t a, alist_lookup t st.request_subscriptions = some a →
        alist_lookup t
          (ops.foldl (fun s op => sup_step op s) st).request_subscriptions = some a) ∧
      (∀ a, a < st.next_addr →
        nat_count a ((ops.foldl (fun s op => sup_step op s) st).handlers.map Prod.fst) =
          nat_count a (st.handlers.map Prod.fst)) ∧
      st.next_addr ≤ (ops.foldl (fun s op => sup_step op s) st).next_addr := by
  induction ops with
  | nil =>
    intro st h
    exact ⟨h, fun t a hh => hh, fun a _ => rfl, Nat.le_refl _⟩
  | cons op rest ih =>
    intro st h
    rw [List.foldl_cons]
    have hstep := subs_inv_step op st h
    have hrest := ih (sup_step op st) hstep.1
    refine ⟨hrest.1, ?_, ?_, Nat.le_trans hstep.2.2 hrest.2.2.2⟩
    · intro t a hta
      exact hrest.2.1 t a (sup_step_subs_stable op st t a hta)
    · intro a ha
      have h1 := hstep.2.1 a ha
      have h2 := hrest.2.2.1 a (Nat.lt_of_lt_of_le ha hstep.2.2)
      rw [h2, h1]

theorem requested_tags_cons (op : sup_op) (rest : List sup_op) :
    requested_tags (op :: rest) =
      (match op with
       | .request t _ => [t]
       | _ => []) ++ requested_tags rest := by
  cases op <;> simp [requested_tags]

theorem sup_step_subs_new (op : sup_op) (st : sup_state) (t : Nat)
    (h : (alist_lookup t (sup_step op st).request_subscriptions).isSome) :
    (∃ r, op = sup_op.request t r) ∨
      (alist_lookup t st.request_subscriptions).isSome := by
  cases op with
  | request t2 r =>
    simp only [sup_step] at h
    rcases do_request_timeout_subs t2 r st with ⟨h1, _, _, _⟩ | ⟨h1, _, _, _⟩
    · rw [h1] at h
      exact Or.inr h
    · rw [h1, alist_lookup_append] at h
      cases hl : alist_lookup t st.request_subscriptions with
      | some v =>
        right
        rfl
      | none =>
        rw [hl] at h
        by_cases ht : t2 = t
        · exact Or.inl ⟨r, by rw [ht]⟩
        · simp [alist_lookup, ht] at h
  | response a2 m =>
    simp only [sup_step] at h
    rw [(response_arrive_fields a2 m st).1] at h
    exact Or.inr h
  | timer i =>
    simp only [sup_step] at h
    rw [(on_timer_trigger_fields i st).1] at h
    exact Or.inr h
  | arm_shutdown => exact Or.inr h

theorem isSome_requested (ops : List sup_op) :
    ∀ st t,
      (alist_lookup t
        (ops.foldl (fun s op => sup_step op s) st).request_subscriptions).isSome →
      t ∈ requested_tags ops ∨ (alist_lookup t st.request_subscriptions).isSome := by
  induction ops with
  | nil => exact fun st t h => Or.inr h
  | cons op rest ih =>
    intro st t h
    rw [List.foldl_cons] at h
    rcases ih (sup_step op st) t h with hmem | hsome
    · left
      rw [requested_tags_cons]
      exact List.mem_append_right _ hmem
    · rcases sup_step_subs_new op st t hsome with ⟨r, hop⟩ | h2
      · left
        subst hop
        rw [requested_tags_cons]
        exact List.mem_append_left _ (List.mem_singleton.mpr rfl)
      · exact Or.inr h2

theorem do_request_lookup_isSome (t r : Nat) (st : sup_state) :
    (alist_lookup t (do_request_timeout t r st).request_subscriptions).isSome := by
  rcases do_request_timeout_subs t r st with ⟨h1, _, _, h4⟩ | ⟨h1, _, _, h4⟩
  · rw [h1]
    exact h4
  · rw [h1, alist_lookup_append, h4]
    simp [alist_lookup]

theorem isSome_stable_run (ops : List sup_op) :
    ∀ st t, (alist_lookup t st.request_subscriptions).isSome →
      (alist_lookup t
        (ops.foldl (fun s op => sup_step op s) st).request_subscriptions).isSome := by
  induction ops with
  | nil => exact fun st t h => h
  | cons op rest ih =>
    intro st t h
    rw [List.foldl_cons]
    apply ih
    cases hl : alist_lookup t st.request_subscriptions with
    | none => rw [hl] at h; simp at h
    | some a => rw [sup_step_subs_stable op st t a hl]; rfl

theorem requested_isSome (ops : List sup_op) :
    ∀ st t, t ∈ requested_tags ops →
      (alist_lookup t
        (ops.foldl (fun s op => sup_step op s) st).request_subscriptions).isSome := by
  induction ops with
  | nil =>
    intro st t h
    simp [requested_tags] at h
  | cons op rest ih =>
    intro st t h
    rw [List.foldl_cons]
    rw [requested_tags_cons] at h
    cases op with
    | request t2 r =>
      rcases List.mem_append.mp h with h1 | h2
      · simp at h1
        subst h1
        exact isSome_stable_run rest _ _
          (by simpa only [sup_step] using do_request_lookup_isSome _ r st)
      · exact ih _ t h2
    | response a m =>
      exact ih _ t (by simpa using h)
    | timer i =>
      exact ih _ t (by simpa using h)
    | arm_shutdown =>
      exact ih _ t (by simpa using h)

theorem u32_big : 128 ≤ u32 := by
  have h1 : (128 : Nat) = 2 ^ 7 := by decide
  rw [u32, h1]
  exact Nat.pow_le_pow_right (by decide) (by decide)

theorem lt_u32_small (n : Nat) (h : n < 128) : n < u32 :=
  Nat.lt_of_lt_of_le h u32_big

theorem mod_u32_eq (n : Nat) (h : n < 128) : n % u32 = n :=
  Nat.mod_eq_of_lt (lt_u32_small n h)

theorem step_req1_eval :
    sup_step (sup_op.request 5 100) sup_init =
      ⟨1, [(5, 0)], [(0, 1)], [(1, ⟨100, 1⟩)], [1], 1, []⟩ := by
  have hm : (1 : Nat) % u32 = 1 := mod_u32_eq 1 (by decide)
  simp [sup_step, do_request_timeout, request_builder, builder_timeout,
        sup_init, alist_lookup, hm]

theorem step_req2_eval :
    sup_step (sup_op.request 5 200)
      (⟨1, [(5, 0)], [(0, 1)], [(1, ⟨100, 1⟩)], [1], 1, []⟩ : sup_state) =
      ⟨2, [(5, 0)], [(0, 1)], [(1, ⟨100, 1⟩), (2, ⟨200, 2⟩)], [2, 1], 1, []⟩ := by
  have hm : (2 : Nat) % u32 = 2 := mod_u32_eq 2 (by decide)
  simp [sup_step, do_request_timeout, request_builder, builder_timeout,
        alist_lookup, hm]

theorem step_resp2_eval :
    sup_step (sup_op.response 0 2)
      (⟨2, [(5, 0)], [(0, 1)], [(1, ⟨100, 1⟩), (2, ⟨200, 2⟩)], [2, 1], 1, []⟩ :
        sup_state) =
      ⟨2, [(5, 0)], [(0, 1)], [(2, ⟨200, 2⟩)], [2], 1, [⟨100, false, 2⟩]⟩ := rfl

theorem step_timer2_eval :
    sup_step (sup_op.timer 2)
      (⟨2, [(5, 0)], [(0, 1)], [(2, ⟨200, 2⟩)], [2], 1, [⟨100, false, 2⟩]⟩ :
        sup_state) =
      ⟨2, [(5, 0)], [(0, 1)], [], [], 1, [⟨100, false, 2⟩, ⟨200, true, 2⟩]⟩ := rfl

theorem step_resp1_eval :
    sup_step (sup_op.response 0 1)
      (⟨2, [(5, 0)], [(0, 1)], [], [], 1, [⟨100, false, 2⟩, ⟨200, true, 2⟩]⟩ :
        sup_state) =
      ⟨2, [(5, 0)], [(0, 1)], [], [], 1, [⟨100, false, 2⟩, ⟨200, true, 2⟩]⟩ := rfl

theorem step_timer1_eval :
    sup_step (sup_op.timer 1)
      (⟨2, [(5, 0)], [(0, 1)], [], [], 1, [⟨100, false, 2⟩, ⟨200, true, 2⟩]⟩ :
        sup_state) =
      ⟨2, [(5, 0)], [(0, 1)], [], [], 1, [⟨100, false, 2⟩, ⟨200, true, 2⟩]⟩ := rfl

theorem run_req1_eval :
    sup_run [sup_op.request 5 100] =
      ⟨1, [(5, 0)], [(0, 1)], [(1, ⟨100, 1⟩)], [1], 1, []⟩ := by
  show sup_step (sup_op.request 5 100) sup_init = _
  exact step_req1_eval

theorem run_c1_eval :
    sup_run [sup_op.request 5 100, sup_op.request 5 200,
             sup_op.response 0 2, sup_op.timer 2] =
      ⟨2, [(5, 0)], [(0, 1)], [], [], 1, [⟨100, false, 2⟩, ⟨200, true, 2⟩]⟩ := by
  show sup_step (sup_op.timer 2) (sup_step (sup_op.response 0 2)
      (sup_step (sup_op.request 5 200)
        (sup_step (sup_op.request 5 100) sup_init))) = _
  rw [step_req1_eval, step_req2_eval, step_resp2_eval, step_timer2_eval]

theorem run_c1_ext_eval :
    sup_run [sup_op.request 5 100, sup_op.request 5 200,
             sup_op.response 0 2, sup_op.timer 2,
             sup_op.response 0 1, sup_op.timer 1] =
      ⟨2, [(5, 0)], [(0, 1)], [], [], 1, [⟨100, false, 2⟩, ⟨200, true, 2⟩]⟩ := by
  show sup_step (sup_op.timer 1) (sup_step (sup_op.response 0 1)
      (sup_step (sup_op.timer 2) (sup_step (sup_op.response 0 2)
        (sup_step (sup_op.request 5 200)
          (sup_step (sup_op.request 5 100) sup_init))))) = _
  rw [step_req1_eval, step_req2_eval, step_resp2_eval, step_timer2_eval,
      step_resp1_eval, step_timer1_eval]

/-- Claim C1: with a timeout-guarded request, the requester is promised
exactly one of the real response and the synthetic `request_timeout`
message. The code violates this: the handler installed for a response
type captures the id of the FIRST request of that type, so in the trace
[request 1 of type 5 by caller 100; request 2 of type 5 by caller 200;
the real response to request 2 arriving at the imaginary address 0;
timer 2 firing] the delivered messages are the response payload of
request 2 misdirected to caller 100 and the timeout of request 2 to
caller 200 — caller 100 observes NEITHER the real response nor the
timeout correlated with its own request 1, and the violation is
permanent: even after the real response to request 1 arrives and its
timer-fire event occurs, caller 100 still observes nothing for
request 1 (the entry and timer of request 1 were already consumed). -/
theorem c1_exactly_one_violated :
    (sup_run [sup_op.request 5 100, sup_op.request 5 200,
              sup_op.response 0 2, sup_op.timer 2]).delivered =
      [⟨100, false, 2⟩, ⟨200, true, 2⟩] ∧
    observations 100 1
      (sup_run [sup_op.request 5 100, sup_op.request 5 200,
                sup_op.response 0 2, sup_op.timer 2]) = 0 ∧
    observations 100 1
      (sup_run [sup_op.request 5 100, sup_op.request 5 200,
                sup_op.response 0 2, sup_op.timer 2,
                sup_op.response 0 1, sup_op.timer 1]) = 0 := by
  refine ⟨?_, ?_, ?_⟩
  · rw [run_c1_eval]
  · rw [run_c1_eval]
    rfl
  · rw [run_c1_ext_eval]
    rfl

/-- Claim C2: the installed handler is claimed to deliver a response iff
`request_map` still contains the response's OWN request id. The code
violates this: after a single request (id 1, caller 100, type 5), a
response carrying request id 2 arrives at the imaginary address 0; its
own id 2 has no `request_map` entry, so per the claim it must be
silently dropped with no state change — but the code looks up the
captured id 1, cancels timer 1, forwards the payload to caller 100 and
erases entry 1. -/
theorem c2_handler_keyed_by_captured_id :
    alist_lookup 2 (sup_run [sup_op.request 5 100]).request_map = none ∧
    (response_arrive 0 2 (sup_run [sup_op.request 5 100])).delivered =
      [⟨100, false, 2⟩] ∧
    (response_arrive 0 2 (sup_run [sup_op.request 5 100])).request_map = [] ∧
    (response_arrive 0 2 (sup_run [sup_op.request 5 100])).armed = [] := by
  refine ⟨?_, ?_, ?_, ?_⟩ <;> rw [run_req1_eval] <;> rfl

/-- Claim C3: for every distinct response payload type, the imaginary
reply address is allocated at most once, lazily on the first request of
that type, cached in `request_subscriptions`, and exactly one handler is
installed on it; later requests of the same type reuse the cached
address (the cache entry never changes) and install no further handler
(the handler count on that address stays exactly one under any
continuation of the trace). A type tag is cached only when some request
of that type occurred, and conversely every requested tag is cached. -/
theorem c3_imaginary_address_once (ops more : List sup_op) (t a : Nat)
    (h : alist_lookup t (sup_run ops).request_subscriptions = some a) :
    t ∈ requested_tags ops ∧
    nat_count a ((sup_run ops).handlers.map Prod.fst) = 1 ∧
    alist_lookup t (sup_run (ops ++ more)).request_subscriptions = some a ∧
    nat_count a ((sup_run (ops ++ more)).handlers.map Prod.fst) = 1 ∧
    (∀ t2, t2 ∈ requested_tags ops →
      (alist_lookup t2 (sup_run ops).request_subscriptions).isSome) := by
  have hrun := subs_inv_run ops sup_init sup_init_inv
  have hinv : subs_handlers_inv (sup_run ops) := hrun.1
  have hmem : t ∈ requested_tags ops := by
    have hks : (alist_lookup t (sup_run ops).request_subscriptions).isSome := by
      rw [h]
      rfl
    rcases isSome_requested ops sup_init t hks with h1 | h2
    · exact h1
    · simp [sup_init, alist_lookup] at h2
  have hpair : (t, a) ∈ (sup_run ops).request_subscriptions := alist_lookup_mem h
  have hsnd : a ∈ (sup_run ops).request_subscriptions.map Prod.snd :=
    List.mem_map.mpr ⟨(t, a), hpair, rfl⟩
  have hcount1 : nat_count a ((sup_run ops).handlers.map Prod.fst) = 1 := by
    rw [← hinv.1]
    exact nat_count_eq_one a _ hinv.2.2 hsnd
  have hbound : a < (sup_run ops).next_addr := hinv.2.1 (t, a) hpair
  have hrun2 := subs_inv_run more (sup_run ops) hinv
  have hstable :
      alist_lookup t (sup_run (ops ++ more)).request_subscriptions = some a := by
    rw [sup_run, List.foldl_append]
    exact hrun2.2.1 t a h
  have hcount2 :
      nat_count a ((sup_run (ops ++ more)).handlers.map Prod.fst) = 1 := by
    rw [sup_run, List.foldl_append]
    exact (hrun2.2.2.1 a hbound).trans hcount1
  exact ⟨hmem, hcount1, hstable, hcount2,
    fun t2 h2 => requested_isSome ops sup_init t2 h2⟩

theorem handler_body_shape (c m : Nat) (st : sup_state) :
    ((handler_body c m st).request_map = st.request_map ∧
     (handler_body c m st).armed = st.armed) ∨
    ((alist_lookup c st.request_map).isSome ∧
     (handler_body c m st).request_map = alist_erase c st.request_map ∧
     (handler_body c m st).armed = nat_erase c st.armed) := by
  unfold handler_body
  cases hm : alist_lookup c st.request_map with
  | none => exact Or.inl ⟨rfl, rfl⟩
  | some tm => exact Or.inr ⟨rfl, rfl, rfl⟩

theorem response_arrive_shape (a m : Nat) (st : sup_state) :
    ((response_arrive a m st).request_map = st.request_map ∧
     (response_arrive a m st).armed = st.armed) ∨
    (∃ c, (alist_lookup c st.request_map).isSome ∧
      (response_arrive a m st).request_map = alist_erase c st.request_map ∧
      (response_arrive a m st).armed = nat_erase c st.armed) := by
  unfold response_arrive
  cases alist_lookup a st.handlers with
  | none => exact Or.inl ⟨rfl, rfl⟩
  | some c =>
    rcases handler_body_shape c m st with ⟨h1, h2⟩ | ⟨h0, h1, h2⟩
    · exact Or.inl ⟨h1, h2⟩
    · exact Or.inr ⟨c, h0, h1, h2⟩

theorem on_timer_trigger_shape (i : Nat) (st : sup_state) :
    ((on_timer_trigger i st).request_map = st.request_map ∧
     (on_timer_trigger i st).armed = st.armed) ∨
    ((on_timer_trigger i st).request_map = alist_erase i st.request_map ∧
     (on_timer_trigger i st).armed = nat_erase i st.armed) ∨
    (alist_lookup i st.request_map = none ∧
     (on_timer_trigger i st).request_map = st.request_map ∧
     (on_timer_trigger i st).armed = nat_erase i st.armed) := by
  unfold on_timer_trigger
  split
  · cases hm : alist_lookup i st.request_map with
    | some tm => exact Or.inr (Or.inl ⟨rfl, rfl⟩)
    | none => exact Or.inr (Or.inr ⟨rfl, rfl, rfl⟩)
  · exact Or.inl ⟨rfl, rfl⟩

/-- Request-map versus armed-timers invariant: every mapped key is a
positive request id no greater than the id counter; every mapped key has
an armed timer; every armed timer id is either the reserved shutdown
timer id 0 or a mapped key. -/
def timer_inv (st : sup_state) : Prop :=
  (∀ k, (alist_lookup k st.request_map).isSome → 1 ≤ k ∧ k ≤ st.last_req_id) ∧
  (∀ k, (alist_lookup k st.request_map).isSome → k ∈ st.armed) ∧
  (∀ k, k ∈ st.armed → k = 0 ∨ (alist_lookup k st.request_map).isSome)

theorem timer_inv_request (t r : Nat) (st : sup_state) (h : timer_inv st)
    (hltu : st.last_req_id + 1 < u32) :
    timer_inv (do_request_timeout t r st) := by
  obtain ⟨hmap, harmed, hlast⟩ := do_request_timeout_shape t r st
  have hrid : (st.last_req_id + 1) % u32 = st.last_req_id + 1 :=
    Nat.mod_eq_of_lt hltu
  rw [hrid] at hmap harmed hlast
  rw [timer_inv, hmap, harmed, hlast]
  refine ⟨?_, ?_, ?_⟩
  · intro k hk
    rw [alist_lookup_append] at hk
    cases hl : alist_lookup k st.request_map with
    | some v =>
      have := h.1 k (by rw [hl]; rfl)
      omega
    | none =>
      rw [hl] at hk
      by_cases hkr : st.last_req_id + 1 = k
      · omega
      · simp [alist_lookup, hkr] at hk
  · intro k hk
    rw [alist_lookup_append] at hk
    cases hl : alist_lookup k st.request_map with
    | some v =>
      exact List.mem_cons_of_mem _ (h.2.1 k (by rw [hl]; rfl))
    | none =>
      rw [hl] at hk
      by_cases hkr : st.last_req_id + 1 = k
      · rw [← hkr]
        exact List.mem_cons_self _ _
      · simp [alist_lookup, hkr] at hk
  · intro k hk
    rcases List.mem_cons.mp hk with he | hm
    · right
      subst he
      rw [alist_lookup_append]
      cases hl : alist_lookup (st.last_req_id + 1) st.request_map with
      | some v => rfl
      | none => simp [alist_lookup]
    · rcases h.2.2 k hm with h0 | hs
      · exact Or.inl h0
      · right
        rw [alist_lookup_append]
        cases hl : alist_lookup k st.request_map with
        | some v => rfl
        | none => rw [hl] at hs; simp at hs

theorem timer_inv_response (a m : Nat) (st : sup_state) (h : timer_inv st) :
    timer_inv (response_arrive a m st) := by
  have hlast := (response_arrive_fields a m st).2.2.2
  rcases response_arrive_shape a m st with ⟨hmap, harmed⟩ | ⟨c, _, hmap, harmed⟩
  · rw [timer_inv, hmap, harmed, hlast]
    exact h
  · rw [timer_inv, hmap, harmed, hlast]
    refine ⟨?_, ?_, ?_⟩
    · intro k hk
      rw [alist_lookup_erase] at hk
      by_cases hkc : k = c
      · simp [hkc] at hk
      · rw [if_neg hkc] at hk
        exact h.1 k hk
    · intro k hk
      rw [alist_lookup_erase] at hk
      by_cases hkc : k = c
      · simp [hkc] at hk
      · rw [if_neg hkc] at hk
        exact (mem_nat_erase k c st.armed).mpr ⟨h.2.1 k hk, hkc⟩
    · intro k hk
      have hk2 := (mem_nat_erase k c st.armed).mp hk
      rcases h.2.2 k hk2.1 with h0 | hs
      · exact Or.inl h0
      · right
        rw [alist_lookup_erase, if_neg hk2.2]
        exact hs

theorem timer_inv_timer (i : Nat) (st : sup_state) (h : timer_inv st) :
    timer_inv (on_timer_trigger i st) := by
  have hlast := (on_timer_trigger_fields i st).2.2.2
  rcases on_timer_trigger_shape i st with
    ⟨hmap, harmed⟩ | ⟨hmap, harmed⟩ | ⟨hnone, hmap, harmed⟩
  · rw [timer_inv, hmap, harmed, hlast]
    exact h
  · rw [timer_inv, hmap, harmed, hlast]
    refine ⟨?_, ?_, ?_⟩
    · intro k hk
      rw [alist_lookup_erase] at hk
      by_cases hki : k = i
      · simp [hki] at hk
      · rw [if_neg hki] at hk
        exact h.1 k hk
    · intro k hk
      rw [alist_lookup_erase] at hk
      by_cases hki : k = i
      · simp [hki] at hk
      · rw [if_neg hki] at hk
        exact (mem_nat_erase k i st.armed).mpr ⟨h.2.1 k hk, hki⟩
    · intro k hk
      have hk2 := (mem_nat_erase k i st.armed).mp hk
      rcases h.2.2 k hk2.1 with h0 | hs
      · exact Or.inl h0
      · right
        rw [alist_lookup_erase, if_neg hk2.2]
        exact hs
  · rw [timer_inv, hmap, harmed, hlast]
    refine ⟨h.1, ?_, ?_⟩
    · intro k hk
      have hki : k ≠ i := by
        intro he
        rw [he, hnone] at hk
        simp at hk
      exact (mem_nat_erase k i st.armed).mpr ⟨h.2.1 k hk, hki⟩
    · intro k hk
      exact h.2.2 k ((mem_nat_erase k i st.armed).mp hk).1

theorem timer_inv_arm (st : sup_state) (h : timer_inv st) :
    timer_inv (arm_shutdown_timer st) := by
  refine ⟨h.1, fun k hk => List.mem_cons_of_mem _ (h.2.1 k hk), ?_⟩
  intro k hk
  rcases List.mem_cons.mp hk with he | hm
  · exact Or.inl he
  · exact h.2.2 k hm

theorem timer_inv_run (ops : List sup_op) :
    ∀ st, timer_inv st → st.last_req_id + req_count ops < u32 →
      timer_inv (ops.foldl (fun s op => sup_step op s) st) := by
  induction ops with
  | nil => exact fun st h _ => h
  | cons op rest ih =>
    intro st h hb
    rw [List.foldl_cons]
    cases op with
    | request t r =>
      have hrc : req_count (sup_op.request t r :: rest) = 1 + req_count rest := rfl
      rw [hrc] at hb
      have hltu : st.last_req_id + 1 < u32 := by omega
      have hlast :
          (sup_step (sup_op.request t r) st).last_req_id = st.last_req_id + 1 := by
        simp only [sup_step]
        rw [(do_request_timeout_shape t r st).2.2, Nat.mod_eq_of_lt hltu]
      apply ih
      · exact timer_inv_request t r st h hltu
      · rw [hlast]
        omega
    | response a m =>
      have hrc : req_count (sup_op.response a m :: rest) = 0 + req_count rest := rfl
      rw [hrc] at hb
      apply ih
      · exact timer_inv_response a m st h
      · rw [show (sup_step (sup_op.response a m) st).last_req_id = st.last_req_id
              from (response_arrive_fields a m st).2.2.2]
        omega
    | timer i =>
      have hrc : req_count (sup_op.timer i :: rest) = 0 + req_count rest := rfl
      rw [hrc] at hb
      apply ih
      · exact timer_inv_timer i st h
      · rw [show (sup_step (sup_op.timer i) st).last_req_id = st.last_req_id
              from (on_timer_trigger_fields i st).2.2.2]
        omega
    | arm_shutdown =>
      have hrc : req_count (sup_op.arm_shutdown :: rest) = 0 + req_count rest := rfl
      rw [hrc] at hb
      apply ih
      · exact timer_inv_arm st h
      · show st.last_req_id + req_count rest < u32
        omega

/-- Claim C4: outside atomic transitions, `request_map` has an entry for
a given id iff a timer with that id is armed, with the sole exception of
the reserved shutdown timer id 0, which is armed without a map entry:
`timeout()` arms the timer exactly when it stores the entry, the
response handler cancels the timer exactly when it erases the entry, and
the timer-trigger path removes both together. The 32-bit id counter must
not wrap, hence the bound on the number of requests in the trace. -/
theorem c4_request_map_iff_armed (ops : List sup_op)
    (h : req_count ops ≤ u32 - 1) (i : Nat) :
    (alist_lookup i (sup_run ops).request_map).isSome ↔
      (i ∈ (sup_run ops).armed ∧ i ≠ 0) := by
  have h0 : timer_inv sup_init := by
    refine ⟨?_, ?_, ?_⟩ <;> intro k hk <;> simp [sup_init, alist_lookup] at hk
  have hb : sup_init.last_req_id + req_count ops < u32 := by
    show 0 + req_count ops < u32
    rw [Nat.zero_add]
    exact Nat.lt_of_le_of_lt h
      (Nat.sub_lt (lt_u32_small 0 (by decide)) Nat.one_pos)
  have hinv := timer_inv_run ops sup_init h0 hb
  constructor
  · intro hk
    refine ⟨hinv.2.1 i hk, ?_⟩
    intro h0i
    subst h0i
    have := hinv.1 0 hk
    omega
  · rintro ⟨hm, hne⟩
    rcases hinv.2.2 i hm with h0i | hs
    · exact absurd h0i hne
    · exact hs

/-- Witness for c4_request_map_iff_armed: in the concrete trace [arm the
shutdown timer, issue one request], request id 1 is mapped and armed,
while the armed shutdown timer id 0 has no request_map entry. -/
theorem c4_request_map_iff_armed_witness :
    req_count [sup_op.arm_shutdown, sup_op.request 5 100] ≤ u32 - 1 ∧
    ((alist_lookup 1
        (sup_run [sup_op.arm_shutdown, sup_op.request 5 100]).request_map).isSome ↔
      (1 ∈ (sup_run [sup_op.arm_shutdown, sup_op.request 5 100]).armed ∧
        (1 : Nat) ≠ 0)) ∧
    ((alist_lookup 0
        (sup_run [sup_op.arm_shutdown, sup_op.request 5 100]).request_map).isSome ↔
      (0 ∈ (sup_run [sup_op.arm_shutdown, sup_op.request 5 100]).armed ∧
        (0 : Nat) ≠ 0)) :=
  ⟨by exact Nat.le_pred_of_lt (lt_u32_small 1 (by decide)),
   c4_request_map_iff_armed [sup_op.arm_shutdown, sup_op.request 5 100]
     (by exact Nat.le_pred_of_lt (lt_u32_small 1 (by decide))) 1,
   c4_request_map_iff_armed [sup_op.arm_shutdown, sup_op.request 5 100]
     (by exact Nat.le_pred_of_lt (lt_u32_small 1 (by decide))) 0⟩

/-- Witness for c3_imaginary_address_once at the concrete trace of a
single request of type 5 by caller 100. -/
theorem c3_imaginary_address_once_witness :
    alist_lookup 5 (sup_run [sup_op.request 5 100]).request_subscriptions =
      some 0 ∧
    (5 ∈ requested_tags [sup_op.request 5 100] ∧
     nat_count 0 ((sup_run [sup_op.request 5 100]).handlers.map Prod.fst) = 1 ∧
     alist_lookup 5
       (sup_run ([sup_op.request 5 100] ++
         [sup_op.request 5 200])).request_subscriptions = some 0 ∧
     nat_count 0
       ((sup_run ([sup_op.request 5 100] ++
         [sup_op.request 5 200])).handlers.map Prod.fst) = 1 ∧
     (∀ t2, t2 ∈ requested_tags [sup_op.request 5 100] →
       (alist_lookup t2
         (sup_run [sup_op.request 5 100]).request_subscriptions).isSome)) :=
  ⟨by rw [run_req1_eval]; rfl,
   c3_imaginary_address_once [sup_op.request 5 100] [sup_op.request 5 200] 5 0
     (by rw [run_req1_eval]; rfl)⟩

/-- The actor lifecycle states (`state_t` of the framework). -/
inductive state_t where
  | NEW
  | INITIALIZING
  | OPERATIONAL
  | SHUTTING_DOWN
  | SHUT_DOWN
deriving DecidableEq

/-- The lifecycle-relevant portion of `actor_base_t`: the state and the
`init_request` / `shutdown_request` slots (holding message ids). -/
structure actor_state where
  state : state_t
  init_request : Option Nat
  shutdown_request : Option Nat
deriving DecidableEq

/-- `init_shutdown_plugin_t::on_init` (init_shutdown.cpp lines 23-30):
the `state == NEW` assertion and the transition to INITIALIZING are
commented out in the source; the handler only stores the request in the
`init_request` slot and calls `init_continue`. -/
def on_init (msg : Nat) (a : actor_state) : actor_state :=
  { a with init_request := some msg }

/-- The assertion guarding `init_shutdown_plugin_t::on_shutdown`
(init_shutdown.cpp line 33): `assert(actor->state ==
state_t::OPERATIONAL)`. -/
def on_shutdown_assert (s : state_t) : Bool :=
  match s with
  | .OPERATIONAL => true
  | _ => false

/-- The state change performed by `on_shutdown` (init_shutdown.cpp lines
34-36) when the assertion passes: move to SHUTTING_DOWN, store the
request, continue shutdown. -/
def on_shutdown (msg : Nat) (a : actor_state) : actor_state :=
  { a with state := .SHUTTING_DOWN, shutdown_request := some msg }

/-- Modelled from the spec: the lifecycle state machine of section 4.4
admits a `shutdown_request` in INITIALIZING (the edge down to
SHUTTING_DOWN) and in OPERATIONAL. -/
def spec_admits_shutdown (s : state_t) : Bool :=
  match s with
  | .INITIALIZING => true
  | .OPERATIONAL => true
  | _ => false

/-- Claim C7 counterexample: receipt of an init_request in state NEW
does NOT transition the actor to INITIALIZING — the transition is
commented out in the source, so the state stays NEW. -/
theorem c7_no_transition_counterexample :
    (on_init 7 ⟨state_t.NEW, none, none⟩).state = state_t.NEW ∧
    (on_init 7 ⟨state_t.NEW, none, none⟩).state ≠ state_t.INITIALIZING :=
  ⟨rfl, by decide⟩

/-- Claim C7 as amended: on_init stores the request in the init_request
slot and continues initialization, in every state alike; the actor's
state is left unchanged (the NEW assertion and the INITIALIZING
transition are commented out), and an init_request outside NEW is not
flagged. -/
theorem c7_on_init_stores_request (msg : Nat) (a : actor_state) :
    (on_init msg a).state = a.state ∧
    (on_init msg a).init_request = some msg ∧
    (on_init msg a).shutdown_request = a.shutdown_request :=
  ⟨rfl, rfl, rfl⟩

/-- Claim C8: the assertion guarding on_shutdown is claimed to hold in
every state in which the lifecycle state machine admits a
shutdown_request; the state machine admits it in INITIALIZING, where the
code's `assert(state == OPERATIONAL)` is false — the assertion aborts
instead of performing the admitted INITIALIZING to SHUTTING_DOWN
transition, which on_shutdown does perform from OPERATIONAL. -/
theorem c8_shutdown_assert_fails_in_initializing :
    spec_admits_shutdown state_t.INITIALIZING = true ∧
    on_shutdown_assert state_t.INITIALIZING = false ∧
    on_shutdown_assert state_t.OPERATIONAL = true ∧
    (on_shutdown 9 ⟨state_t.OPERATIONAL, none, none⟩).state =
      state_t.SHUTTING_DOWN ∧
    (on_shutdown 9 ⟨state_t.OPERATIONAL, none, none⟩).shutdown_request =
      some 9 :=
  ⟨rfl, rfl, rfl, rfl, rfl⟩

/-- A recorded subscription point of an actor: the (address, handler)
pair, kept in registration order in the lifetime plugin's `points`. -/
structure point_t where
  address : Nat
  handler : Nat
deriving DecidableEq

/-- `lifetime_plugin_t::unsubscribe` (lifetime.cpp lines 59-68): walks
`points` from `rbegin()` to `rend()` — reverse registration order —
issuing `sup.unsubscribe_actor(addr, handler)` for each point; the
result is the sequence of issued unsubscribe_actor calls in issue
order. -/
def lifetime_unsubscribe (points : List point_t) : List point_t :=
  points.reverse

/-- `lifetime_plugin_t::handle_shutdown` (lifetime.cpp lines 40-44):
returns true (shutdown work done) iff `points` is empty; otherwise calls
`unsubscribe()` and returns false. The second component is the list of
issued unsubscribe_actor calls. -/
def handle_shutdown (points : List point_t) : Bool × List point_t :=
  if points.isEmpty then (true, [])
  else (false, lifetime_unsubscribe points)

/-- Claim C9: handle_shutdown reports completion (true) iff the recorded
subscription points are empty; otherwise it issues one unsubscribe_actor
call per recorded point, iterating the points in reverse registration
order, and returns false. -/
theorem c9_handle_shutdown (points : List point_t) :
    ((handle_shutdown points).1 = true ↔ points = []) ∧
    (handle_shutdown points).2 = points.reverse ∧
    ((handle_shutdown points).1 = false → points ≠ []) := by
  cases points with
  | nil =>
    refine ⟨?_, ?_, ?_⟩ <;> simp [handle_shutdown, lifetime_unsubscribe]
  | cons p rest =>
    refine ⟨?_, ?_, ?_⟩ <;> simp [handle_shutdown, lifetime_unsubscribe]

/-- Witness for c9_handle_shutdown: the empty points list reports done;
a two-point list yields the two calls in reverse registration order. -/
theorem c9_handle_shutdown_witness :
    (handle_shutdown []).1 = true ∧
    (handle_shutdown [⟨1, 2⟩, ⟨3, 4⟩]).2 = [⟨3, 4⟩, ⟨1, 2⟩] :=
  ⟨(c9_handle_shutdown []).1.mpr rfl,
   (c9_handle_shutdown [⟨1, 2⟩, ⟨3, 4⟩]).2.1⟩

/-- An address as seen by the subscription logic: the identity of the
owning supervisor object (`&addr->supervisor`), the owning supervisor's
own primary address (`addr->supervisor.address` /
`addr->supervisor.get_address()`), and the identity of the address
object itself. -/
structure address_t where
  sup_id : Nat
  sup_addr : Nat
  id : Nat
deriving DecidableEq

/-- The handler data used by subscribe/unsubscribe: the address of the
handler's owning actor (`handler->actor_ptr->address`, also returned by
`get_address()`). -/
structure handler_s where
  actor_addr : Nat
deriving DecidableEq

/-- The message kinds sent by the subscription and unsubscription
protocol. -/
inductive msg_kind where
  | subscription_confirmation
  | external_subscription
  | unsubscription_confirmation
  | external_unsubscription
  | commit_unsubscription
deriving DecidableEq

/-- A message emitted by `send<...>`: the destination address, the
payload kind, and the subscription point (addr, handler) it carries. -/
structure sent_msg where
  dest : Nat
  kind : msg_kind
  addr : address_t
  handler : handler_s
deriving DecidableEq

/-- The subscription-relevant portion of a supervisor: the
`subscription_map` and the queue of messages put by `send`. -/
structure sub_state where
  subscription_map : List (address_t × List handler_s)
  queue : List sent_msg
deriving DecidableEq

/-- `supervisor_t::subscribe_actor` (supervisor.h lines 208-216), run on
the supervisor whose object identity is `self_id`: if the address is
owned by this supervisor, `try_emplace` the subscription record and add
the handler (`subscription_t::subscribe` lives in subscription.h, which
is not among the sources; modelled from the spec: ordered append,
insertion order), then send `subscription_confirmation_t` to the
handler's actor's address; otherwise send `external_subscription_t` to
the owning supervisor's address. -/
def subscribe_actor (self_id : Nat) (st : sub_state) (addr : address_t)
    (h : handler_s) : sub_state :=
  if addr.sup_id = self_id then
    { subscription_map :=
        alist_set addr ((alist_lookup addr st.subscription_map).getD [] ++ [h])
          st.subscription_map,
      queue := st.queue ++
        [⟨h.actor_addr, msg_kind.subscription_confirmation, addr, h⟩] }
  else
    { st with queue := st.queue ++
        [⟨addr.sup_addr, msg_kind.external_subscription, addr, h⟩] }

/-- `supervisor_t::unsubscribe_actor` (supervisor.h lines 230-237): the
message destination `dest` is the handler's actor's address in BOTH
branches; a locally-owned address gets `unsubscription_confirmation_t`,
a foreign one gets `external_unsubscription_t` — each sent to `dest`. -/
def unsubscribe_actor (self_id : Nat) (st : sub_state) (addr : address_t)
    (h : handler_s) : sub_state :=
  if addr.sup_id = self_id then
    { st with queue := st.queue ++
        [⟨h.actor_addr, msg_kind.unsubscription_confirmation, addr, h⟩] }
  else
    { st with queue := st.queue ++
        [⟨h.actor_addr, msg_kind.external_unsubscription, addr, h⟩] }

/-- `lifetime_plugin_t::handle_unsubscription_external` (lifetime.cpp
lines 108-113): on receiving the external-unsubscription notice, the
actor sends `commit_unsubscription_t` carrying the point to the owning
supervisor's address (`point.address->supervisor.get_address()`) and
then removes the point from its records. -/
def handle_unsubscription_external (st : sub_state) (addr : address_t)
    (h : handler_s) : sub_state :=
  { st with queue := st.queue ++
      [⟨addr.sup_addr, msg_kind.commit_unsubscription, addr, h⟩] }

theorem alist_lookup_set {α β : Type} [DecidableEq α] (k : α) (v : β)
    (l : List (α × β)) : alist_lookup k (alist_set k v l) = some v := by
  induction l with
  | nil => simp [alist_set, alist_lookup]
  | cons e rest ih =>
    by_cases he : e.1 = k
    · simp [alist_set, alist_lookup, he]
    · simp [alist_set, alist_lookup, he, ih]

/-- Claim C5: subscribe_actor with a locally-owned address appends the
handler to the subscription set of that address (insertion order) and
sends a subscription_confirmation carrying (addr, handler) to the
handler's actor's address; with a foreign address it sends an
external-subscription request carrying (addr, handler) to the owning
supervisor's address and leaves the subscription map untouched. -/
theorem c5_subscribe_actor (self_id : Nat) (st : sub_state)
    (addr : address_t) (h : handler_s) :
    (addr.sup_id = self_id →
      alist_lookup addr (subscribe_actor self_id st addr h).subscription_map =
        some ((alist_lookup addr st.subscription_map).getD [] ++ [h]) ∧
      (subscribe_actor self_id st addr h).queue =
        st.queue ++
          [⟨h.actor_addr, msg_kind.subscription_confirmation, addr, h⟩]) ∧
    (addr.sup_id ≠ self_id →
      (subscribe_actor self_id st addr h).queue =
        st.queue ++ [⟨addr.sup_addr, msg_kind.external_subscription, addr, h⟩] ∧
      (subscribe_actor self_id st addr h).subscription_map =
        st.subscription_map) := by
  constructor
  · intro hloc
    rw [subscribe_actor, if_pos hloc]
    exact ⟨alist_lookup_set _ _ _, rfl⟩
  · intro hfor
    rw [subscribe_actor, if_neg hfor]
    exact ⟨rfl, rfl⟩

/-- Witness for c5_subscribe_actor: a local subscribe (owner identity 3
equals self 3) records the handler and confirms to the actor's address
7; a foreign subscribe (self 5) sends the external request to the
owner's address 30. -/
theorem c5_subscribe_actor_witness :
    alist_lookup (⟨3, 30, 9⟩ : address_t)
      (subscribe_actor 3 ⟨[], []⟩ ⟨3, 30, 9⟩ ⟨7⟩).subscription_map =
      some [⟨7⟩] ∧
    (subscribe_actor 3 ⟨[], []⟩ ⟨3, 30, 9⟩ ⟨7⟩).queue =
      [⟨7, msg_kind.subscription_confirmation, ⟨3, 30, 9⟩, ⟨7⟩⟩] ∧
    (subscribe_actor 5 ⟨[], []⟩ ⟨3, 30, 9⟩ ⟨7⟩).queue =
      [⟨30, msg_kind.external_subscription, ⟨3, 30, 9⟩, ⟨7⟩⟩] :=
  ⟨((c5_subscribe_actor 3 ⟨[], []⟩ ⟨3, 30, 9⟩ ⟨7⟩).1 rfl).1,
   ((c5_subscribe_actor 3 ⟨[], []⟩ ⟨3, 30, 9⟩ ⟨7⟩).1 rfl).2,
   ((c5_subscribe_actor 5 ⟨[], []⟩ ⟨3, 30, 9⟩ ⟨7⟩).2 (by decide)).1⟩

/-- Claim C6 counterexample: for a foreign address (owning supervisor
identity 5 with address 50) and a handler whose actor lives at address
7, the only message emitted by unsubscribe_actor is the
external-unsubscription notice destined to the actor's address 7 — not
to the owning supervisor's address 50 — so the claim that the
unsubscription request travels to the address's owning supervisor is
false at this input. -/
theorem c6_unsubscribe_destination_counterexample :
    (unsubscribe_actor 3 ⟨[], []⟩ ⟨5, 50, 9⟩ ⟨7⟩).queue =
      [⟨7, msg_kind.external_unsubscription, ⟨5, 50, 9⟩, ⟨7⟩⟩] ∧
    (⟨5, 50, 9⟩ : address_t).sup_addr = 50 ∧
    (7 : Nat) ≠ 50 :=
  ⟨rfl, rfl, by decide⟩

/-- Claim C6 as amended: for a foreign address the supervisor sends the
external_unsubscription notice to the HANDLER'S ACTOR'S address; the
actor's lifetime plugin, on processing that notice, then sends a
commit_unsubscription carrying the point to the owning supervisor's
address; for a locally-owned address the unsubscription confirmation is
sent immediately to the handler's actor's address. -/
theorem c6_unsubscribe_flow (self_id : Nat) (st : sub_state)
    (addr : address_t) (h : handler_s) :
    (addr.sup_id ≠ self_id →
      (unsubscribe_actor self_id st addr h).queue =
        st.queue ++
          [⟨h.actor_addr, msg_kind.external_unsubscription, addr, h⟩] ∧
      (handle_unsubscription_external
          (unsubscribe_actor self_id st addr h) addr h).queue =
        st.queue ++
          [⟨h.actor_addr, msg_kind.external_unsubscription, addr, h⟩,
           ⟨addr.sup_addr, msg_kind.commit_unsubscription, addr, h⟩]) ∧
    (addr.sup_id = self_id →
      (unsubscribe_actor self_id st addr h).queue =
        st.queue ++
          [⟨h.actor_addr, msg_kind.unsubscription_confirmation, addr, h⟩]) := by
  refine ⟨?_, ?_⟩
  · intro hfor
    refine ⟨?_, ?_⟩
    · simp [unsubscribe_actor, hfor]
    · simp [unsubscribe_actor, handle_unsubscription_external, hfor]
  · intro hloc
    simp [unsubscribe_actor, hloc]

/-- Witness for c6_unsubscribe_flow: the foreign two-hop flow ends with
the commit destined to the owner's address 50, and a local unsubscribe
confirms immediately to the actor's address 7. -/
theorem c6_unsubscribe_flow_witness :
    (handle_unsubscription_external
        (unsubscribe_actor 3 ⟨[], []⟩ ⟨5, 50, 9⟩ ⟨7⟩) ⟨5, 50, 9⟩ ⟨7⟩).queue =
      [⟨7, msg_kind.external_unsubscription, ⟨5, 50, 9⟩, ⟨7⟩⟩,
       ⟨50, msg_kind.commit_unsubscription, ⟨5, 50, 9⟩, ⟨7⟩⟩] ∧
    (unsubscribe_actor 3 ⟨[], []⟩ ⟨3, 30, 9⟩ ⟨7⟩).queue =
      [⟨7, msg_kind.unsubscription_confirmation, ⟨3, 30, 9⟩, ⟨7⟩⟩] :=
  ⟨((c6_unsubscribe_flow 3 ⟨[], []⟩ ⟨5, 50, 9⟩ ⟨7⟩).1 (by decide)).2,
   (c6_unsubscribe_flow 3 ⟨[], []⟩ ⟨3, 30, 9⟩ ⟨7⟩).2 rfl⟩

/-- `handler_t<Handler>` data relevant to equality and hashing
(handler.hpp): the actor identity (`raw_actor_ptr`), the identity of the
`Handler` member-pointer type (`typeid(Handler)`), and the member
function pointer value itself. -/
structure handler_t where
  raw_actor_ptr : Nat
  handler_type : Nat
  member : Nat
deriving DecidableEq

/-- `std::type_index(typeid(Handler)).hash_code()`: a function of the
handler type identity alone. -/
def type_hash (t : Nat) : Nat := t

/-- The modulus of the 64-bit `std::size_t`. -/
def u64 : Nat := 2 ^ 64

/-- `precalc_hash` as computed in the `handler_t` constructor
(handler.hpp lines 43-48): `h1 ^ (h2 << 1)` on `size_t`, where `h1` is
the actor pointer value and `h2` the handler type hash. -/
def precalc_hash (h : handler_t) : Nat :=
  ((h.raw_actor_ptr % u64) ^^^ ((type_hash h.handler_type <<< 1) % u64)) % u64

/-- `handler_t::operator==` (handler.hpp lines 58-64): equal raw actor
pointers, the same dynamic `handler_t<Handler>` instantiation (the
`dynamic_cast` succeeds only for the same Handler type), and equal
member pointers. -/
def handler_eq (a b : handler_t) : Bool :=
  a.raw_actor_ptr == b.raw_actor_ptr &&
    (a.handler_type == b.handler_type && a.member == b.member)

/-- `std::hash<handler_ptr_t>::operator()` (handler.hpp lines 76-80):
`reinterpret_cast<size_t>(handler->hash())`; `hash()` returns the
`size_t` precalc_hash and a reinterpret_cast of an integral value to its
own type is the identity on the value, so the specialization returns the
precomputed hash unchanged. -/
def std_hash (h : handler_t) : Nat := precalc_hash h

/-- Claim C10: two handlers that compare equal (same actor, same
entry-point) receive the same std::hash value, namely the precomputed
hash derived from the pair (actor identity, entry-point type id). -/
theorem c10_equal_handlers_equal_hash (a b : handler_t)
    (h : handler_eq a b = true) :
    std_hash a = std_hash b ∧ std_hash a = precalc_hash a := by
  simp only [handler_eq, Bool.and_eq_true, beq_iff_eq] at h
  refine ⟨?_, rfl⟩
  rw [std_hash, std_hash, precalc_hash, precalc_hash, h.1, h.2.1]

/-- Witness for c10_equal_handlers_equal_hash on two structurally equal
concrete handlers. -/
theorem c10_equal_handlers_equal_hash_witness :
    handler_eq ⟨4, 11, 2⟩ ⟨4, 11, 2⟩ = true ∧
    (std_hash ⟨4, 11, 2⟩ = std_hash ⟨4, 11, 2⟩ ∧
     std_hash ⟨4, 11, 2⟩ = precalc_hash ⟨4, 11, 2⟩) :=
  ⟨by decide, c10_equal_handlers_equal_hash ⟨4, 11, 2⟩ ⟨4, 11, 2⟩ (by decide)⟩

end Rotor
